import Mathlib

/-!
Shallow embedding of the ingestion-and-alerting core of `src/app.py`
(PulseGuard SOS dashboard).  Instants are modelled as integers counting
minutes (the code's only duration constant is `timedelta(minutes=10)`),
timezone offsets likewise in minutes.  Python dictionaries with optional,
nullable fields become `Option (Option _)` (outer: key present, inner:
value non-null); runtime shape checks that the typed embedding makes
vacuous (tuple arity, `isinstance` checks) are noted where they occur.
-/

namespace PulseGuard

/-- An aware `datetime`: the absolute instant expressed in UTC, plus the
offset of the attached `tzinfo` (0 for `timezone.utc`). -/
structure Aware where
  utc : Int
  tzOffset : Int
deriving DecidableEq

/-- Suffix of an ISO-8601 timestamp string: trailing `Z`, an explicit
numeric offset, or no offset marker at all. -/
inductive IsoSuffix
  | z
  | offset (mins : Int)
  | noOffset
deriving DecidableEq

/-- A well-formed ISO-8601 timestamp string: a local wall time plus a
suffix.  (Unparsable strings are a separate `RawTs` constructor.) -/
structure IsoString where
  time : Int
  suffix : IsoSuffix
deriving DecidableEq

/-- Models `ts_raw.replace("Z", "+00:00")` (app.py line 161): a trailing `Z`
becomes the explicit offset `+00:00`; other strings are unchanged. -/
def IsoString.replaceZ (s : IsoString) : IsoString :=
  match s.suffix with
  | .z => ⟨s.time, .offset 0⟩
  | suf => ⟨s.time, suf⟩

/-- Models `datetime.fromisoformat`: yields local time and optional offset;
a bare `Z` suffix is rejected (raises), which is why the code replaces
it first. -/
def fromisoformat (s : IsoString) : Option (Int × Option Int) :=
  match s.suffix with
  | .z => none
  | .offset m => some (s.time, some m)
  | .noOffset => some (s.time, none)

/-- The raw `timestamp` field of a payload: an already-typed `datetime`
(naive or aware), a parsable ISO string, an unparsable string, or
absent/None/other. -/
inductive RawTs
  | dt (localTime : Int) (off : Option Int)
  | str (s : IsoString)
  | strBad
  | absent
deriving DecidableEq

/-- The raw `heart_rate_bpm` field: an integer, a numeric string
(coercible by `int(...)`), a non-numeric string such as `"abc"`
(`int` raises), or absent/None. -/
inductive HrRaw
  | intVal (n : Int)
  | numStr (n : Int)
  | badStr
  | absent
deriving DecidableEq

/-- The combined effect of `if hr is not None` and `try: int(hr) except:`
(app.py lines 256-261): the coerced bpm, or `none` when the reading is
absent or not coercible. -/
def int_coerce : HrRaw → Option Int
  | .intVal n => some n
  | .numStr n => some n
  | .badStr => none
  | .absent => none

/-- Raw `sleep` sub-dict: each key independently absent or present with a
nullable value. -/
structure SleepUpdate where
  duration_min : Option (Option Int)
  quality : Option (Option String)
deriving DecidableEq

/-- Raw `fitness` sub-dict. -/
structure FitnessUpdate where
  steps : Option (Option Int)
  calories : Option (Option Int)
deriving DecidableEq

/-- Raw `nutrition` sub-dict. -/
structure NutritionUpdate where
  hydration_ml : Option (Option Int)
  meals : Option (Option Int)
deriving DecidableEq

/-- Raw `emergency` sub-dict (returned by `parse_payload`, unused by the
update cycle). -/
structure Emergency where
  active : Bool
  reason : String
deriving DecidableEq

/-- An incoming payload dictionary.  For the three panel sub-dicts and
`emergency`, `none` covers both "key absent" and "value null": the code
collapses them with `payload.get(k, {}) or {}`. -/
structure Payload where
  timestamp : RawTs
  heart_rate_bpm : HrRaw
  sleep : Option SleepUpdate
  fitness : Option FitnessUpdate
  nutrition : Option NutritionUpdate
  emergency : Option Emergency
deriving DecidableEq

def emptySleepUpdate : SleepUpdate := ⟨none, none⟩
def emptyFitnessUpdate : FitnessUpdate := ⟨none, none⟩
def emptyNutritionUpdate : NutritionUpdate := ⟨none, none⟩

/-- Models `ts.replace(tzinfo=utc)` when naive / `ts.astimezone(utc)` when aware
(app.py lines 164-168).  A naive local time is read as UTC; an aware one
keeps its absolute instant (`utc = local - offset`) and gets offset 0. -/
def normalize_tz (localTime : Int) (off : Option Int) : Aware :=
  match off with
  | none => ⟨localTime, 0⟩
  | some m => ⟨localTime - m, 0⟩

/-- Timestamp resolution in `parse_payload` (app.py lines 153-170):
datetime objects pass through tz-normalization; strings are parsed after
`Z`-replacement; absent or unparsable raw values fall back to
`datetime.now(timezone.utc)`. -/
def parse_timestamp (now : Int) (raw : RawTs) : Aware :=
  match raw with
  | .dt t off => normalize_tz t off
  | .str s =>
      match fromisoformat s.replaceZ with
      | some (t, off) => normalize_tz t off
      | none => ⟨now, 0⟩
  | .strBad => ⟨now, 0⟩
  | .absent => ⟨now, 0⟩

/-- Result of `parse_payload`: `(ts, hr, sleep, fitness, nutrition,
emergency)`. -/
structure Parsed where
  ts : Aware
  hr : HrRaw
  sleep : SleepUpdate
  fitness : FitnessUpdate
  nutrition : NutritionUpdate
  emergency : Emergency
deriving DecidableEq

/-- Function `parse_payload` (app.py lines 143-178). -/
def parse_payload (now : Int) (payload : Payload) : Parsed :=
  { ts := parse_timestamp now payload.timestamp
    hr := payload.heart_rate_bpm
    sleep := payload.sleep.getD emptySleepUpdate
    fitness := payload.fitness.getD emptyFitnessUpdate
    nutrition := payload.nutrition.getD emptyNutritionUpdate
    emergency := payload.emergency.getD ⟨false, ""⟩ }

/-- Outcome of the network interaction attempted by `fetch_http_json`:
`requests.get` raised (timeout, connection refused, unreachable host), or
a response arrived with a status code and a body that `r.json()` either
decodes or rejects. -/
inductive JsonBody
  | invalid
  | valid (p : Payload)
deriving DecidableEq

inductive HttpResult
  | transportError
  | response (status : Nat) (body : JsonBody)
deriving DecidableEq

/-- Function `fetch_http_json` (app.py lines 180-192): empty URL, transport
errors, non-200 statuses and undecodable bodies all return `None`
(the exception paths are caught inside the function). -/
def fetch_http_json (url : String) (net : HttpResult) : Option Payload :=
  if url = "" then none
  else
    match net with
    | .transportError => none
    | .response status body =>
        if status = 200 then
          match body with
          | .valid p => some p
          | .invalid => none
        else none

/-- Models `random.randint(lo, hi)` driven by an explicit draw (inclusive
bounds, as in Python). -/
def randint (lo hi : Int) (draw : Nat) : Int :=
  lo + (draw % (hi - lo + 1).toNat : Nat)

/-- Explicit RNG draws consumed by one call of `simulate_payload_dict`.
`r` stands for `random.random()` scaled to a percentage in `[0, 100)`. -/
structure SimDraws where
  r : Nat
  circ : Nat
  hiDraw : Nat
  loDraw : Nat
  jitter : Nat
  sleepChoice : Fin 4
  steps : Nat
  calories : Nat
  hydration : Nat
  meals : Nat

/-- Sidebar configuration (app.py lines 109-112). -/
structure Config where
  safe_low : Int
  safe_high : Int
  alert_low : Int
  alert_high : Int
deriving DecidableEq

/-- The fixed `sleep_options` list of `simulate_payload_dict`. -/
def sleep_options : List SleepUpdate :=
  [⟨some (some 0), some (some "—")⟩,
   ⟨some (some 360), some (some "fair")⟩,
   ⟨some (some 420), some (some "good")⟩,
   ⟨some (some 480), some (some "excellent")⟩]

/-- Function `simulate_payload_dict` (app.py lines 194-239).  The timestamp is
`now.isoformat().replace("+00:00", "Z")`, i.e. a `Z`-suffixed ISO string
of the current UTC instant; `int(4 * (random.random() - 0.5))` is
modelled as a draw in `[-2, 1]`. -/
def simulate_payload_dict (cfg : Config) (now : Int) (d : SimDraws) : Payload :=
  let circadian : Int := 72 + ((d.circ % 4 : Nat) - 2 : Int)
  let hr : Int :=
    if d.r < 3 then randint cfg.alert_high (cfg.alert_high + 20) d.hiDraw
    else if d.r < 6 then randint (max 30 (cfg.alert_low - 10)) cfg.alert_low d.loDraw
    else circadian + randint (-3) 3 d.jitter
  let sleep := sleep_options.get ⟨d.sleepChoice.val, d.sleepChoice.isLt⟩
  let emergency_active : Bool := decide (cfg.alert_high ≤ hr ∨ hr ≤ cfg.alert_low)
  { timestamp := .str ⟨now, .z⟩
    heart_rate_bpm := .intVal hr
    sleep := some sleep
    fitness := some ⟨some (some (randint 800 12000 d.steps)),
                     some (some (randint 180 650 d.calories))⟩
    nutrition := some ⟨some (some (randint 600 2500 d.hydration)),
                       some (some (randint 1 4 d.meals))⟩
    emergency := some ⟨emergency_active,
                       if emergency_active then "Heart rate out of bounds" else ""⟩ }

/-- One alert-log record (app.py lines 275-280); its `time` is stored as
the ISO string of this instant, its dict key `"type"` is rendered here as
the field `type_` (`type` is a Lean keyword). -/
structure AlertEvent where
  time : Aware
  type_ : String
  value : Int
  message : String
deriving DecidableEq

/-- Models `f"Heart rate ... bpm out of bounds"` (app.py line 279). -/
def alert_message (hr_int : Int) : String :=
  "Heart rate " ++ toString hr_int ++ " bpm out of bounds"

/-- Stored (non-raw) panel snapshots, each field nullable. -/
structure SleepPanel where
  duration_min : Option Int
  quality : Option String
deriving DecidableEq

structure FitnessPanel where
  steps : Option Int
  calories : Option Int
deriving DecidableEq

structure NutritionPanel where
  hydration_ml : Option Int
  meals : Option Int
deriving DecidableEq

/-- The session state owned by the monitor (app.py lines 123-136). -/
structure MonitorState where
  hr_series : List (Aware × Int)
  alerts : List AlertEvent
  sleep : SleepPanel
  fitness : FitnessPanel
  nutrition : NutritionPanel
  last_sync : Option Int
deriving DecidableEq

/-- Function `init_state_once` (app.py lines 123-138). -/
def init_state : MonitorState :=
  { hr_series := []
    alerts := []
    sleep := ⟨none, none⟩
    fitness := ⟨none, none⟩
    nutrition := ⟨none, none⟩
    last_sync := none }

/-- Panel merge for sleep (app.py lines 284-287):
`sleep.get(k, st.session_state.sleep.get(k))` per field — a present key
(even with a null value) wins, an absent key keeps the prior value. -/
def merge_sleep (u : SleepUpdate) (p : SleepPanel) : SleepPanel :=
  ⟨u.duration_min.getD p.duration_min, u.quality.getD p.quality⟩

/-- Panel merge for fitness (app.py lines 288-291). -/
def merge_fitness (u : FitnessUpdate) (p : FitnessPanel) : FitnessPanel :=
  ⟨u.steps.getD p.steps, u.calories.getD p.calories⟩

/-- Panel merge for nutrition (app.py lines 292-295). -/
def merge_nutrition (u : NutritionUpdate) (p : NutritionPanel) : NutritionPanel :=
  ⟨u.hydration_ml.getD p.hydration_ml, u.meals.getD p.meals⟩

/-- Models `st.session_state.alerts.append(...)` followed by
`st.session_state.alerts = st.session_state.alerts[-50:]`
(app.py lines 275-281): Python's `l[-50:]` is `l.drop (l.length - 50)`. -/
def alert_append (log : List AlertEvent) (e : AlertEvent) : List AlertEvent :=
  (log ++ [e]).drop ((log ++ [e]).length - 50)

/-- The state-update body of `update_state_from_source_once` after the
payload has been parsed (app.py lines 253-296).  The window filter's
dynamic shape checks (`isinstance(p, tuple)`, `len(p) == 2`,
`isinstance(p[0], datetime)`, `p[0].tzinfo is not None`) always hold for
the typed entries this embedding stores, so only the cutoff comparison
`p[0] >= cutoff` (on absolute instants) remains. -/
def process_parsed (cfg : Config) (now : Int) (parsed : Parsed)
    (s : MonitorState) : MonitorState :=
  let s1 :=
    match int_coerce parsed.hr with
    | none => s
    | some hr_int =>
        let series := (s.hr_series ++ [(parsed.ts, hr_int)]).filter
          (fun p : Aware × Int => decide (now - 10 ≤ p.1.utc))
        let alerts :=
          if cfg.alert_high ≤ hr_int ∨ hr_int ≤ cfg.alert_low then
            alert_append s.alerts ⟨parsed.ts, "EMERGENCY", hr_int, alert_message hr_int⟩
          else s.alerts
        { s with hr_series := series, alerts := alerts }
  { s1 with
    sleep := merge_sleep parsed.sleep s1.sleep
    fitness := merge_fitness parsed.fitness s1.fitness
    nutrition := merge_nutrition parsed.nutrition s1.nutrition
    last_sync := some now }

/-- Parse-then-update (app.py lines 253-296). -/
def process_payload (cfg : Config) (now : Int) (payload : Payload)
    (s : MonitorState) : MonitorState :=
  process_parsed cfg now (parse_payload now payload) s

/-- Models Python's `str.startswith` (app.py line 246) at the character
level: the prefix's characters lead the string's characters. -/
def starts_with (s p : String) : Bool :=
  p.data.isPrefixOf s.data

/-- Function `update_state_from_source_once` (app.py lines 244-296): source
selection (`data_source.startswith("HTTP")`, with simulated fallback when
the fetch yields `None`) followed by the parse-and-update body.  `sim` is
the payload `simulate_payload_dict` would build this tick. -/
def update_state_from_source_once (data_source data_url : String)
    (net : HttpResult) (sim : Payload) (cfg : Config) (now : Int)
    (s : MonitorState) : MonitorState :=
  let payload :=
    if starts_with data_source "HTTP" then
      match fetch_http_json data_url net with
      | none => sim
      | some p => p
    else sim
  process_payload cfg now payload s

/-- Read view `hr_series[-1]` (app.py lines 318, 396). -/
def latest (s : MonitorState) : Option (Aware × Int) :=
  s.hr_series.getLast?

/-- Read view of the full window contents (app.py lines 345-346). -/
def series (s : MonitorState) : List (Aware × Int) :=
  s.hr_series

/-! Concrete fixtures used by witnesses and counterexamples: the sidebar
default thresholds, a breaching payload, and a payload whose heart rate
is a non-numeric string. -/

/-- Sidebar default configuration (55/100/45/120). -/
def cfg0 : Config := ⟨55, 100, 45, 120⟩

/-- A shifted configuration under which a bpm of 130 is a LOW breach. -/
def cfgLowShift : Config := ⟨55, 100, 140, 200⟩

/-- Payload with a `Z`-suffixed timestamp at instant 500 and bpm 130. -/
def payloadHigh130 : Payload := ⟨.str ⟨500, .z⟩, .intVal 130, none, none, none, none⟩

/-- Payload whose heart rate is the non-coercible string `"abc"`. -/
def payloadBadHr : Payload := ⟨.absent, .badStr, none, none, none, none⟩

/-- State holding one sample whose instant (0) is long past any cutoff. -/
def staleState : MonitorState := { init_state with hr_series := [(⟨0, 0⟩, 80)] }

/-! Helper lemmas shared by the claim theorems. -/

theorem parse_timestamp_tzOffset (now : Int) (raw : RawTs) :
    (parse_timestamp now raw).tzOffset = 0 := by
  cases raw with
  | dt t off => cases off <;> rfl
  | str s => obtain ⟨t, suf⟩ := s; cases suf <;> rfl
  | strBad => rfl
  | absent => rfl

theorem process_parsed_of_none (cfg : Config) (now : Int) (parsed : Parsed)
    (s : MonitorState) (h : int_coerce parsed.hr = none) :
    process_parsed cfg now parsed s =
      { s with
        sleep := merge_sleep parsed.sleep s.sleep
        fitness := merge_fitness parsed.fitness s.fitness
        nutrition := merge_nutrition parsed.nutrition s.nutrition
        last_sync := some now } := by
  simp only [process_parsed, h]

theorem process_parsed_of_some (cfg : Config) (now : Int) (parsed : Parsed)
    (s : MonitorState) (v : Int) (h : int_coerce parsed.hr = some v) :
    process_parsed cfg now parsed s =
      { hr_series := (s.hr_series ++ [(parsed.ts, v)]).filter
          (fun p : Aware × Int => decide (now - 10 ≤ p.1.utc))
        alerts :=
          if cfg.alert_high ≤ v ∨ v ≤ cfg.alert_low then
            alert_append s.alerts ⟨parsed.ts, "EMERGENCY", v, alert_message v⟩
          else s.alerts
        sleep := merge_sleep parsed.sleep s.sleep
        fitness := merge_fitness parsed.fitness s.fitness
        nutrition := merge_nutrition parsed.nutrition s.nutrition
        last_sync := some now } := by
  simp only [process_parsed, h]

theorem alert_append_length (log : List AlertEvent) (e : AlertEvent) :
    (alert_append log e).length = min (log.length + 1) 50 := by
  simp [alert_append]
  omega

theorem alert_append_length_le (log : List AlertEvent) (e : AlertEvent) :
    (alert_append log e).length ≤ 50 := by
  rw [alert_append_length]; omega

theorem alert_append_foldl_length_le (es : List AlertEvent) :
    ∀ acc : List AlertEvent, acc.length ≤ 50 →
      (es.foldl alert_append acc).length ≤ 50 := by
  induction es with
  | nil => intro acc h; simpa using h
  | cons e es ih =>
      intro acc h
      simpa using ih (alert_append acc e) (alert_append_length_le acc e)

theorem process_payload_tz_all (cfg : Config) (now : Int) (payload : Payload)
    (s : MonitorState)
    (h : s.hr_series.all (fun p => p.1.tzOffset == 0) = true) :
    (process_payload cfg now payload s).hr_series.all
      (fun p => p.1.tzOffset == 0) = true := by
  unfold process_payload
  cases hc : int_coerce (parse_payload now payload).hr with
  | none => rw [process_parsed_of_none cfg now _ s hc]; exact h
  | some v =>
      rw [process_parsed_of_some cfg now _ s v hc]
      rw [List.all_eq_true] at h ⊢
      intro x hx
      have hx' := List.mem_of_mem_filter hx
      rcases List.mem_append.mp hx' with h1 | h2
      · exact h x h1
      · have hx2 : x = ((parse_payload now payload).ts, v) := by simpa using h2
        subst hx2
        simpa using parse_timestamp_tzOffset now payload.timestamp

theorem ticks_tz_all (cfg : Config) (ticks : List (Int × Payload)) :
    ∀ s : MonitorState, s.hr_series.all (fun p => p.1.tzOffset == 0) = true →
      ((ticks.foldl (fun st t => process_payload cfg t.1 t.2 st) s).hr_series.all
        (fun p => p.1.tzOffset == 0)) = true := by
  induction ticks with
  | nil => intro s h; simpa using h
  | cons t ts ih =>
      intro s h
      simpa using ih (process_payload cfg t.1 t.2 s) (process_payload_tz_all cfg t.1 t.2 s h)

/-! Claim theorems. -/

/-- C1 (amended): for every sample processed in a tick whose coerced bpm
satisfies `bpm >= alert_high` or `bpm <= alert_low`, exactly one new alert
entry with kind `EMERGENCY` and a message embedding the value is appended
to the alert log (the appended message reads "Heart rate {v} bpm out of
bounds" and does not indicate the direction of the breach); when the log
held fewer than 50 entries its length grows by exactly one.  If the bpm
is strictly between `alert_low` and `alert_high`, no entry is appended. -/
theorem C1_breach_appends_one_emergency_alert (cfg : Config) (now : Int)
    (payload : Payload) (s : MonitorState) (v : Int)
    (hcoerce : int_coerce payload.heart_rate_bpm = some v) :
    (cfg.alert_high ≤ v ∨ v ≤ cfg.alert_low →
      (process_payload cfg now payload s).alerts
        = alert_append s.alerts
            ⟨parse_timestamp now payload.timestamp, "EMERGENCY", v, alert_message v⟩ ∧
      (s.alerts.length < 50 →
        (process_payload cfg now payload s).alerts.length = s.alerts.length + 1)) ∧
    (cfg.alert_low < v ∧ v < cfg.alert_high →
      (process_payload cfg now payload s).alerts = s.alerts) := by
  have hhr : int_coerce (parse_payload now payload).hr = some v := hcoerce
  constructor
  · intro hbreach
    constructor
    · unfold process_payload
      rw [process_parsed_of_some cfg now _ s v hhr]
      simp only [if_pos hbreach]
      rfl
    · intro hlen
      unfold process_payload
      rw [process_parsed_of_some cfg now _ s v hhr]
      simp only [if_pos hbreach, alert_append_length]
      omega
  · intro hsafe
    unfold process_payload
    rw [process_parsed_of_some cfg now _ s v hhr]
    have : ¬(cfg.alert_high ≤ v ∨ v ≤ cfg.alert_low) := by
      push_neg
      exact ⟨by omega, by omega⟩
    simp only [if_neg this]

/-- C1 witness: with the default thresholds, processing a payload whose
bpm is 130 (a high breach) appends exactly the expected EMERGENCY entry
to the empty alert log. -/
theorem C1_breach_appends_one_emergency_alert_witness :
    (process_payload cfg0 500 payloadHigh130 init_state).alerts
      = alert_append init_state.alerts
          ⟨parse_timestamp 500 payloadHigh130.timestamp, "EMERGENCY", 130,
           alert_message 130⟩ ∧
    (process_payload cfg0 500 payloadHigh130 init_state).alerts.length
      = init_state.alerts.length + 1 := by
  have h := C1_breach_appends_one_emergency_alert cfg0 500 payloadHigh130 init_state 130 rfl
  have h1 := h.1 (by left; decide)
  exact ⟨h1.1, h1.2 (by decide)⟩

/-- C1 counterexample (direction embedding): bpm 130 is a HIGH breach
under `cfg0` and a LOW breach under `cfgLowShift`, yet the two ticks
record character-for-character identical alert messages, so the recorded
message cannot embed the direction of the breach as the claim states. -/
theorem C1_message_has_no_direction_counterexample :
    (cfg0.alert_high ≤ 130 ∧ ¬((130 : Int) ≤ cfg0.alert_low)) ∧
    ((130 : Int) ≤ cfgLowShift.alert_low ∧ ¬(cfgLowShift.alert_high ≤ 130)) ∧
    (process_payload cfg0 500 payloadHigh130 init_state).alerts.map AlertEvent.message
      = (process_payload cfgLowShift 500 payloadHigh130 init_state).alerts.map
          AlertEvent.message ∧
    (process_payload cfg0 500 payloadHigh130 init_state).alerts.map AlertEvent.message
      = ["Heart rate 130 bpm out of bounds"] := by
  refine ⟨by decide, by decide, ?_, ?_⟩ <;> decide

/-- C2: immediately after an append completes (a tick whose heart rate
was coercible), every sample remaining in the window has an instant at
least `now - 10` minutes, `now` being the wall-clock instant passed to
the tick: no stale sample survives an append. -/
theorem C2_no_stale_sample_survives_append (cfg : Config) (now : Int)
    (payload : Payload) (s : MonitorState) (v : Int)
    (hcoerce : int_coerce payload.heart_rate_bpm = some v) :
    ∀ p ∈ (process_payload cfg now payload s).hr_series, now - 10 ≤ p.1.utc := by
  have hhr : int_coerce (parse_payload now payload).hr = some v := hcoerce
  unfold process_payload
  rw [process_parsed_of_some cfg now _ s v hhr]
  intro p hp
  have := (List.mem_filter.mp hp).2
  simpa using this

/-- C2 witness: the sample surviving the concrete breach tick at
`now = 500` indeed has an instant at least 490. -/
theorem C2_no_stale_sample_survives_append_witness :
    (500 : Int) - 10 ≤ (⟨(⟨500, 0⟩ : Aware), (130 : Int)⟩ : Aware × Int).1.utc :=
  C2_no_stale_sample_survives_append cfg0 500 payloadHigh130 init_state 130 rfl
    (⟨500, 0⟩, 130) (by decide)

/-- C3: on a tick with the HTTP source selected, every failure mode of
the remote fetch — transport error (timeout, unreachable host), any
non-200 status (e.g. 500), or a 200 response whose body is not valid
JSON — makes `fetch_http_json` return `None`, and the tick completes as
the same update applied to the simulated payload (a single fallback,
embedded as one `sim` acquisition; both functions are total, so no
exception escapes the cycle). -/
theorem C3_http_failure_falls_back_to_simulated (data_source data_url : String)
    (net : HttpResult) (sim : Payload) (cfg : Config) (now : Int) (s : MonitorState)
    (hsrc : starts_with data_source "HTTP" = true)
    (hfail : net = .transportError ∨
             (∃ code body, net = .response code body ∧ code ≠ 200) ∨
             net = .response 200 .invalid) :
    fetch_http_json data_url net = none ∧
    update_state_from_source_once data_source data_url net sim cfg now s
      = process_payload cfg now sim s := by
  have hfetch : fetch_http_json data_url net = none := by
    unfold fetch_http_json
    by_cases hurl : data_url = ""
    · simp [hurl]
    · simp only [if_neg hurl]
      rcases hfail with h | ⟨code, body, hnet, hcode⟩ | h
      · rw [h]
      · rw [hnet]
        simp only [if_neg hcode]
      · rw [h]; rfl
  refine ⟨hfetch, ?_⟩
  unfold update_state_from_source_once
  rw [hsrc]
  simp only [if_true, hfetch]

/-- C3 witness: with the HTTP source selected and the remote endpoint
answering 500 with an undecodable body, the tick equals the update on the
simulated payload. -/
theorem C3_http_failure_falls_back_to_simulated_witness :
    fetch_http_json "https://example.com/feed" (.response 500 .invalid) = none ∧
    update_state_from_source_once "HTTP JSON (watch/phone companion)"
        "https://example.com/feed" (.response 500 .invalid) payloadHigh130 cfg0 500
        init_state
      = process_payload cfg0 500 payloadHigh130 init_state :=
  C3_http_failure_falls_back_to_simulated "HTTP JSON (watch/phone companion)"
    "https://example.com/feed" (.response 500 .invalid) payloadHigh130 cfg0 500
    init_state (by decide)
    (Or.inr (Or.inl ⟨500, .invalid, rfl, by decide⟩))

/-- C4: for each panel (sleep, fitness, nutrition) and each named field,
a field the update supplies (a present dict key, even one holding a null
value — Python's `dict.get` default only applies to absent keys) replaces
the stored value, and an absent field keeps the prior value; merging the
empty update is the identity, merging a full update replaces both fields;
and every tick applies exactly these merges to the prior panel state,
defaulting a missing sub-dict to the empty update. -/
theorem C4_panel_merge_per_field :
    (∀ (p : SleepPanel) (dv : Option Int) (qv : Option String),
      merge_sleep ⟨some dv, some qv⟩ p = ⟨dv, qv⟩ ∧
      merge_sleep ⟨some dv, none⟩ p = ⟨dv, p.quality⟩ ∧
      merge_sleep ⟨none, some qv⟩ p = ⟨p.duration_min, qv⟩ ∧
      merge_sleep emptySleepUpdate p = p) ∧
    (∀ (p : FitnessPanel) (sv cv : Option Int),
      merge_fitness ⟨some sv, some cv⟩ p = ⟨sv, cv⟩ ∧
      merge_fitness ⟨some sv, none⟩ p = ⟨sv, p.calories⟩ ∧
      merge_fitness ⟨none, some cv⟩ p = ⟨p.steps, cv⟩ ∧
      merge_fitness emptyFitnessUpdate p = p) ∧
    (∀ (p : NutritionPanel) (hv mv : Option Int),
      merge_nutrition ⟨some hv, some mv⟩ p = ⟨hv, mv⟩ ∧
      merge_nutrition ⟨some hv, none⟩ p = ⟨hv, p.meals⟩ ∧
      merge_nutrition ⟨none, some mv⟩ p = ⟨p.hydration_ml, mv⟩ ∧
      merge_nutrition emptyNutritionUpdate p = p) ∧
    (∀ (cfg : Config) (now : Int) (payload : Payload) (s : MonitorState),
      (process_payload cfg now payload s).sleep
        = merge_sleep (payload.sleep.getD emptySleepUpdate) s.sleep ∧
      (process_payload cfg now payload s).fitness
        = merge_fitness (payload.fitness.getD emptyFitnessUpdate) s.fitness ∧
      (process_payload cfg now payload s).nutrition
        = merge_nutrition (payload.nutrition.getD emptyNutritionUpdate) s.nutrition) := by
  refine ⟨fun p dv qv => ⟨rfl, rfl, rfl, rfl⟩,
          fun p sv cv => ⟨rfl, rfl, rfl, rfl⟩,
          fun p hv mv => ⟨rfl, rfl, rfl, rfl⟩,
          fun cfg now payload s => ?_⟩
  unfold process_payload
  cases hc : int_coerce (parse_payload now payload).hr with
  | none => rw [process_parsed_of_none cfg now _ s hc]; exact ⟨rfl, rfl, rfl⟩
  | some v => rw [process_parsed_of_some cfg now _ s v hc]; exact ⟨rfl, rfl, rfl⟩

/-- C5: the normalized timestamp always carries offset 0 (tz-aware,
UTC-normalized); an absent or unparsable raw timestamp is replaced by the
current instant; a parsed timestamp lacking an offset is read as UTC; an
aware one is converted (`utc = local - offset`); and consequently, after
any sequence of ticks from the initial state, every stored sample's
instant is UTC-normalized. -/
theorem C5_timestamps_utc_normalized :
    (∀ (now : Int) (raw : RawTs), (parse_timestamp now raw).tzOffset = 0) ∧
    (∀ now : Int, parse_timestamp now .absent = ⟨now, 0⟩) ∧
    (∀ now : Int, parse_timestamp now .strBad = ⟨now, 0⟩) ∧
    (∀ now t : Int, parse_timestamp now (.dt t none) = ⟨t, 0⟩) ∧
    (∀ now t : Int, parse_timestamp now (.str ⟨t, .noOffset⟩) = ⟨t, 0⟩) ∧
    (∀ now t m : Int, parse_timestamp now (.dt t (some m)) = ⟨t - m, 0⟩) ∧
    (∀ (cfg : Config) (ticks : List (Int × Payload)),
      ((ticks.foldl (fun st t => process_payload cfg t.1 t.2 st) init_state).hr_series.all
        (fun p => p.1.tzOffset == 0)) = true) :=
  ⟨parse_timestamp_tzOffset,
   fun _ => rfl, fun _ => rfl, fun _ _ => rfl, fun _ _ => rfl, fun _ _ _ => rfl,
   fun cfg ticks => ticks_tz_all cfg ticks init_state rfl⟩

/-- C6 (amended): when a tick appends a compliant sample, eviction
compares each sample's instant against the cutoff `now - 10` derived from
the wall-clock instant at append time, not against the appended sample's
own instant; but the eviction runs only inside such ticks — a tick with
no coercible heart rate leaves the window untouched, so the window does
NOT continuously age out when no new compliant samples arrive. -/
theorem C6_eviction_uses_wall_clock_only_on_append (cfg : Config) (now : Int)
    (payload : Payload) (s : MonitorState) :
    (∀ v, int_coerce payload.heart_rate_bpm = some v →
      (process_payload cfg now payload s).hr_series
        = (s.hr_series ++ [(parse_timestamp now payload.timestamp, v)]).filter
            (fun p : Aware × Int => decide (now - 10 ≤ p.1.utc))) ∧
    (int_coerce payload.heart_rate_bpm = none →
      (process_payload cfg now payload s).hr_series = s.hr_series) := by
  constructor
  · intro v hv
    have hhr : int_coerce (parse_payload now payload).hr = some v := hv
    unfold process_payload
    rw [process_parsed_of_some cfg now _ s v hhr]
    rfl
  · intro hn
    have hhr : int_coerce (parse_payload now payload).hr = none := hn
    unfold process_payload
    rw [process_parsed_of_none cfg now _ s hhr]

/-- C6 witness: a concrete appending tick filters against `now - 10`,
and a concrete non-appending tick leaves the series unchanged. -/
theorem C6_eviction_uses_wall_clock_only_on_append_witness :
    (process_payload cfg0 500 payloadHigh130 init_state).hr_series
      = (init_state.hr_series ++ [(parse_timestamp 500 payloadHigh130.timestamp, 130)]).filter
          (fun p : Aware × Int => decide (500 - 10 ≤ p.1.utc)) ∧
    (process_payload cfg0 600 payloadBadHr staleState).hr_series
      = staleState.hr_series :=
  ⟨(C6_eviction_uses_wall_clock_only_on_append cfg0 500 payloadHigh130 init_state).1 130 rfl,
   (C6_eviction_uses_wall_clock_only_on_append cfg0 600 payloadBadHr staleState).2 rfl⟩

/-- C6 counterexample: at `now = 600` the stored sample with instant 0 is
far older than `now - 10 = 590`, yet a tick whose payload carries the
non-coercible heart rate `"abc"` leaves it in the window — the window did
not age out on a tick without a new compliant sample, contradicting the
claim's "continuously ages out even when no new compliant samples
arrive". -/
theorem C6_stale_survives_tick_counterexample :
    ((0 : Int) < 600 - 10) ∧
    (process_payload cfg0 600 payloadBadHr staleState).hr_series = [(⟨0, 0⟩, 80)] := by
  constructor
  · decide
  · decide

/-- C7: the alert log holds at most 50 entries after any nonempty
sequence of appends (regardless of the starting log), each append keeps a
suffix of the old-log-plus-new-entry — i.e. truncation drops only the
oldest entries — with resulting length `min (old + 1) 50`; and every tick
either leaves the log unchanged or performs exactly such an append. -/
theorem C7_alert_log_capacity (log : List AlertEvent) (e : AlertEvent)
    (es : List AlertEvent) (cfg : Config) (now : Int) (payload : Payload)
    (s : MonitorState) :
    ((e :: es).foldl alert_append log).length ≤ 50 ∧
    List.IsSuffix (alert_append log e) (log ++ [e]) ∧
    (alert_append log e).length = min (log.length + 1) 50 ∧
    ((process_payload cfg now payload s).alerts = s.alerts ∨
      ∃ a, (process_payload cfg now payload s).alerts = alert_append s.alerts a) := by
  refine ⟨?_, ?_, alert_append_length log e, ?_⟩
  · simpa using alert_append_foldl_length_le es (alert_append log e)
      (alert_append_length_le log e)
  · exact List.drop_suffix _ _
  · unfold process_payload
    cases hc : int_coerce (parse_payload now payload).hr with
    | none => rw [process_parsed_of_none cfg now _ s hc]; left; rfl
    | some v =>
        rw [process_parsed_of_some cfg now _ s v hc]
        by_cases hb : cfg.alert_high ≤ v ∨ v ≤ cfg.alert_low
        · right
          exact ⟨⟨(parse_payload now payload).ts, "EMERGENCY", v, alert_message v⟩,
            by simp only [if_pos hb]⟩
        · left
          simp only [if_neg hb]

/-- C8: a tick whose payload carries a heart rate that is present but not
coercible to an integer (e.g. the string `"abc"`) adds no sample to the
window, appends no alert, and still applies the panel merges — so panel
fields keep their prior snapshot whenever the payload omits them. -/
theorem C8_uncoercible_hr_skips_sample_keeps_panels (cfg : Config) (now : Int)
    (payload : Payload) (s : MonitorState)
    (hbad : int_coerce payload.heart_rate_bpm = none) :
    (process_payload cfg now payload s).hr_series = s.hr_series ∧
    (process_payload cfg now payload s).alerts = s.alerts ∧
    (process_payload cfg now payload s).sleep
      = merge_sleep (payload.sleep.getD emptySleepUpdate) s.sleep ∧
    (process_payload cfg now payload s).fitness
      = merge_fitness (payload.fitness.getD emptyFitnessUpdate) s.fitness ∧
    (process_payload cfg now payload s).nutrition
      = merge_nutrition (payload.nutrition.getD emptyNutritionUpdate) s.nutrition ∧
    (payload.sleep = none → (process_payload cfg now payload s).sleep = s.sleep) ∧
    (payload.fitness = none → (process_payload cfg now payload s).fitness = s.fitness) ∧
    (payload.nutrition = none →
      (process_payload cfg now payload s).nutrition = s.nutrition) := by
  have hhr : int_coerce (parse_payload now payload).hr = none := hbad
  unfold process_payload
  rw [process_parsed_of_none cfg now _ s hhr]
  refine ⟨rfl, rfl, rfl, rfl, rfl, ?_, ?_, ?_⟩
  · intro h; simp [parse_payload, h, merge_sleep, emptySleepUpdate]
  · intro h; simp [parse_payload, h, merge_fitness, emptyFitnessUpdate]
  · intro h; simp [parse_payload, h, merge_nutrition, emptyNutritionUpdate]

/-- C8 witness: the concrete `"abc"` payload against a non-trivial state
adds nothing, alerts nothing and keeps all panels. -/
theorem C8_uncoercible_hr_skips_sample_keeps_panels_witness :
    (process_payload cfg0 600 payloadBadHr staleState).hr_series
        = staleState.hr_series ∧
    (process_payload cfg0 600 payloadBadHr staleState).alerts = staleState.alerts ∧
    (process_payload cfg0 600 payloadBadHr staleState).sleep = staleState.sleep ∧
    (process_payload cfg0 600 payloadBadHr staleState).fitness = staleState.fitness ∧
    (process_payload cfg0 600 payloadBadHr staleState).nutrition
        = staleState.nutrition := by
  have h := C8_uncoercible_hr_skips_sample_keeps_panels cfg0 600 payloadBadHr staleState rfl
  exact ⟨h.1, h.2.1, h.2.2.2.2.2.1 rfl, h.2.2.2.2.2.2.1 rfl, h.2.2.2.2.2.2.2 rfl⟩

/-- C9: a payload whose timestamp is the instant `t` written as a UTC
`Z`-suffixed ISO string and an otherwise identical payload writing it
with an explicit `+00:00` offset normalize to the same stored instant,
and the whole tick produces identical states; moreover the simulator
always emits the `Z`-suffixed form, so the simulate-normalize-append
round trip is covered by the first payload shape. -/
theorem C9_z_and_explicit_offset_agree (cfg : Config) (now t : Int) (hr : HrRaw)
    (sl : Option SleepUpdate) (ft : Option FitnessUpdate)
    (nt : Option NutritionUpdate) (em : Option Emergency) (s : MonitorState)
    (d : SimDraws) :
    parse_timestamp now (.str ⟨t, .z⟩) = parse_timestamp now (.str ⟨t, .offset 0⟩) ∧
    process_payload cfg now ⟨.str ⟨t, .z⟩, hr, sl, ft, nt, em⟩ s
      = process_payload cfg now ⟨.str ⟨t, .offset 0⟩, hr, sl, ft, nt, em⟩ s ∧
    (simulate_payload_dict cfg now d).timestamp = .str ⟨now, .z⟩ :=
  ⟨rfl, rfl, rfl⟩

/-- C10: a tick whose payload has a breaching bpm together with a
timestamp older than `now - 10` still appends the EMERGENCY alert, while
the appended sample is evicted within the same call: it is absent from
the window and from the `series`/`latest` read views. -/
theorem C10_stale_breach_alerts_but_sample_evicted (cfg : Config) (now : Int)
    (payload : Payload) (s : MonitorState) (v : Int)
    (hcoerce : int_coerce payload.heart_rate_bpm = some v)
    (hbreach : cfg.alert_high ≤ v ∨ v ≤ cfg.alert_low)
    (hstale : (parse_timestamp now payload.timestamp).utc < now - 10) :
    (process_payload cfg now payload s).alerts
      = alert_append s.alerts
          ⟨parse_timestamp now payload.timestamp, "EMERGENCY", v, alert_message v⟩ ∧
    (parse_timestamp now payload.timestamp, v)
        ∉ series (process_payload cfg now payload s) ∧
    latest (process_payload cfg now payload s)
        ≠ some (parse_timestamp now payload.timestamp, v) := by
  have hhr : int_coerce (parse_payload now payload).hr = some v := hcoerce
  have hnotmem : (parse_timestamp now payload.timestamp, v)
      ∉ (process_payload cfg now payload s).hr_series := by
    unfold process_payload
    rw [process_parsed_of_some cfg now _ s v hhr]
    intro hmem
    have := (List.mem_filter.mp hmem).2
    simp only [decide_eq_true_eq] at this
    omega
  refine ⟨?_, hnotmem, ?_⟩
  · unfold process_payload
    rw [process_parsed_of_some cfg now _ s v hhr]
    simp only [if_pos hbreach]
    rfl
  · intro hlast
    exact hnotmem (List.mem_of_mem_getLast? (by simpa [latest] using hlast))

/-- C10 witness: at `now = 600` the breaching payload stamped at instant
500 (older than the 10-minute horizon) appends the alert while the sample
is invisible to all reads. -/
theorem C10_stale_breach_alerts_but_sample_evicted_witness :
    (process_payload cfg0 600 payloadHigh130 init_state).alerts
      = alert_append init_state.alerts
          ⟨parse_timestamp 600 payloadHigh130.timestamp, "EMERGENCY", 130,
           alert_message 130⟩ ∧
    (parse_timestamp 600 payloadHigh130.timestamp, (130 : Int))
        ∉ series (process_payload cfg0 600 payloadHigh130 init_state) ∧
    latest (process_payload cfg0 600 payloadHigh130 init_state)
        ≠ some (parse_timestamp 600 payloadHigh130.timestamp, 130) :=
  C10_stale_breach_alerts_but_sample_evicted cfg0 600 payloadHigh130 init_state 130
    rfl (by left; decide) (by decide)

end PulseGuard
